import Mathlib

/-!
# Verification of the login-example credential lifecycle core

Shallow embedding of the repository `login-example-go-part12`:
the JWT credential engine (`auth/jwt_builder.go`), the account state
machine and session orchestrator (`usecase/user_usecase.go`), and the
storage / mail collaborators they call.

Conventions of the embedding:
* Machine time is modelled in seconds as `Int` (JWT `iat` / `exp` are
  UNIX seconds); Go `time.Duration` constants are converted to seconds.
* Stateful calls become explicit state passing: each `time.Now()` in the
  source is a separate clock reading passed as a parameter, the SQL
  database is an explicit `Db` value, and writes are logged as `Effect`s.
* RSA signing is abstracted: a `KeyId` names a keypair; a token carries
  the id of the key that signed it and signature verification compares
  that id with the id of the verification key.
* JSON claim payloads are modelled by `JsonValue`; a JSON number parsed
  by Go lands in `float64`, modelled as an exact rational (every value
  used in theorems below is exactly representable in binary64).
-/

namespace LoginExample

/-- Time in seconds (JWT NumericDate granularity). -/
abbrev Time := Int

/-- One minute, in seconds. -/
def minuteSec : Int := 60

/-- One hour, in seconds. -/
def hourSec : Int := 3600

/-- Modelled from the spec: `entity.UserID` (the `entity` package is not
under `src/`); §3 makes the account id an integer identity. -/
abbrev UserID := Int

/-- Modelled from the spec: the account `state` enum {Pending, Active}
of §3; the source names the pending constant `entity.UserInactive`. -/
inductive UserState where
  | inactive
  | active
deriving DecidableEq, Repr

/-- Modelled from the spec: `entity.User` (package not under `src/`),
fields as used by `usecase/user_usecase.go` and §3 of the spec. -/
structure User where
  ID : UserID
  Email : String
  Salt : String
  Password : String
  ActivateToken : String
  State : UserState
  UpdatedAt : Time
deriving DecidableEq, Repr

/-- Modelled from the spec: `entity.User.IsActive`, true exactly when the
account state is Active (§3). -/
def User.IsActive (u : User) : Bool :=
  u.State == UserState.active

/-- Modelled from the spec: `entity.User.CreateHashedPassword`, an opaque
`KDF(password, salt)` (§3); a concrete injective pairing stands in for
the opaque KDF, no claim depends on its value. -/
def CreateHashedPassword (pw salt : String) : String :=
  pw ++ "$" ++ salt

/-! ## Storage collaborator

Modelled from the spec: the Account Store contract of §6
(`repository.IUserRepository` is not under `src/`): lookup by email and
by id with a distinguishable not-found result, insert of a pending row,
delete by id, mark-active by id. The database is the list of stored
rows; the repository assigns ids and timestamps on insert, which the
orchestrator never reads back, so the inserted row keeps the Go zero
value id and receives the write-time timestamp. -/

/-- The stored account rows. -/
structure Db where
  users : List User
deriving DecidableEq, Repr

/-- `GetByEmail`: first stored row with this email, `none` models
`sql.ErrNoRows`. -/
def Db.GetByEmail (db : Db) (email : String) : Option User :=
  db.users.find? (fun u => u.Email == email)

/-- `Get` by id: first stored row with this id, `none` models not-found. -/
def Db.Get (db : Db) (id : UserID) : Option User :=
  db.users.find? (fun u => u.ID == id)

/-- `Delete`: remove the rows with this id. -/
def Db.Delete (db : Db) (id : UserID) : Db :=
  ⟨db.users.filter (fun u => u.ID != id)⟩

/-- `PreRegister` insert: append the new pending row. -/
def Db.Insert (db : Db) (u : User) : Db :=
  ⟨db.users ++ [u]⟩

/-- `Activate` write: set the state of the rows with this id to active. -/
def Db.MarkActive (db : Db) (id : UserID) : Db :=
  ⟨db.users.map (fun u => if u.ID == id then { u with State := UserState.active } else u)⟩

/-- Observable side effects of one orchestrator operation, in order. -/
inductive Effect where
  | delete (id : UserID)
  | insertPending (u : User)
  | markActive (id : UserID)
  | sendMail (email tok : String)
deriving DecidableEq, Repr

/-- Error kinds returned by the usecase layer, one per distinct error
value constructed in `usecase/user_usecase.go` or propagated from a
collaborator. -/
inductive UErr where
  /-- `sql.ErrNoRows` propagated from `GetByEmail`. -/
  | errNoRows
  /-- `errors.New("user already active")`. -/
  | alreadyActive
  /-- `errors.New("invalid token")`. -/
  | invalidToken
  /-- `errors.New("token expired")`. -/
  | tokenExpired
  /-- failure of `mailer.SendWithActivateToken`. -/
  | mailError
deriving DecidableEq, Repr

/-- `time.Time.Compare`: -1, 0 or +1 as the receiver is before, equal to
or after the argument. -/
def timeCompare (a b : Time) : Int :=
  if a < b then -1 else if a = b then 0 else 1

/-! ## Credential engine (`auth/jwt_builder.go`) -/

/-- `expAccess = 30 * time.Minute`, in seconds. -/
def expAccess : Int := 30 * minuteSec

/-- `expRefresh = 3 * 24 * time.Hour`, in seconds. -/
def expRefresh : Int := 3 * 24 * hourSec

/-- Claim key constant `userIDClaim`. -/
def userIDClaim : String := "user_id"

/-- Issuer constant `issClaim`. -/
def issClaim : String := "login-example"

/-- Access-class subject constant `accessSubClaim`. -/
def accessSubClaim : String := "access-token"

/-- Refresh-class subject constant `refreshSubClaim`. -/
def refreshSubClaim : String := "refresh-token"

/-- Abstract identity of an RSA keypair: signing with the private half of
pair `k` produces a token that verifies exactly against the public half
of pair `k`. -/
abbrev KeyId := Nat

/-- `JwtBuilder` holds the parsed signing key and verification key. -/
structure JwtBuilder where
  secretKey : KeyId
  publicKey : KeyId
deriving DecidableEq, Repr

/-- `NewJwtBuilder`: both keys are loaded from the embedded PEM blocks of
one keypair. -/
def NewJwtBuilder (k : KeyId) : JwtBuilder :=
  ⟨k, k⟩

/-- A JSON claim value as Go deserializes it: a number lands in
`float64` (modelled as an exact rational) and anything else keeps its
own shape. -/
inductive JsonValue where
  | num (q : ℚ)
  | str (s : String)
  | boolean (b : Bool)
  | null
deriving DecidableEq, Repr

/-- The wire token: the claim set carried by the three base64url
segments plus the id of the keypair whose private half signed it.
`userId` is the payload of the `user_id` claim, `none` when the claim is
absent. -/
structure SignedToken where
  iss : String
  sub : String
  iat : Time
  exp : Time
  userId : Option JsonValue
  sigKey : KeyId
deriving DecidableEq, Repr

/-- Error kinds of the credential engine, one per distinct error path in
`auth/jwt_builder.go`. -/
inductive JwtErr where
  /-- `failed to parse token` / `failed to parse request`: signature,
  issuer, subject or expiry validation failed inside `jwt.Parse` /
  `jwt.ParseRequest`. -/
  | parseError
  /-- `failed to get user_id from token`: the claim is absent. -/
  | missingUserId
  /-- `get invalid user_id`: the claim is present but the `float64` type
  assertion fails. -/
  | invalidUserId
deriving DecidableEq, Repr

/-- `generateJWT(u, subClaim, exp)`: builds the claim set and signs it
with the secret key. The two `time.Now()` calls of the source (line 79
for `IssuedAt`, line 80 for `Expiration`) are the clock readings `tIat`
and `tExp`. Faithful to source line 78, the subject written into the
token is `accessSubClaim` and the `subClaim` parameter is unused. -/
def generateJWT (j : JwtBuilder) (u : User) (subClaim : String) (exp : Int)
    (tIat tExp : Time) : SignedToken :=
  { iss := issClaim
    sub := accessSubClaim
    iat := tIat
    exp := tExp + exp
    userId := some (JsonValue.num (u.ID : ℚ))
    sigKey := j.secretKey }

/-- `GenerateAccessToken(u) = generateJWT(u, accessSubClaim, expAccess)`. -/
def GenerateAccessToken (j : JwtBuilder) (u : User) (tIat tExp : Time) : SignedToken :=
  generateJWT j u accessSubClaim expAccess tIat tExp

/-- `GenerateRefreshToken(u) = generateJWT(u, refreshSubClaim, expRefresh)`. -/
def GenerateRefreshToken (j : JwtBuilder) (u : User) (tIat tExp : Time) : SignedToken :=
  generateJWT j u refreshSubClaim expRefresh tIat tExp

/-- The validation performed by `jwt.Parse` / `jwt.ParseRequest` with
`jwt.WithKey(RS256, publicKey)`, `jwt.WithIssuer(issClaim)` and
`jwt.WithSubject(requiredSub)`: signature against the public key, issuer
and subject equality, and current time before `exp`. -/
def validateToken (j : JwtBuilder) (now : Time) (requiredSub : String)
    (t : SignedToken) : Bool :=
  t.sigKey == j.publicKey && t.iss == issClaim && t.sub == requiredSub
    && decide (now < t.exp)

/-- `parseJWT(token)`: refresh-class verification, requires subject
`refreshSubClaim`. -/
def parseJWT (j : JwtBuilder) (now : Time) (t : SignedToken) : Except JwtErr SignedToken :=
  if validateToken j now refreshSubClaim t then Except.ok t
  else Except.error JwtErr.parseError

/-- `parseRequest(r)`: access-class verification, requires subject
`accessSubClaim`; the extraction of the token bytes from the
Authorization header is HTTP plumbing and the token is passed directly. -/
def parseRequest (j : JwtBuilder) (now : Time) (t : SignedToken) : Except JwtErr SignedToken :=
  if validateToken j now accessSubClaim t then Except.ok t
  else Except.error JwtErr.parseError

/-- Go conversion `entity.UserID(uid)` of a `float64` to the integer id
type: truncation toward zero. -/
def float64ToUserID (q : ℚ) : UserID :=
  q.num.tdiv (q.den : Int)

/-- `GetUserIDFromJWT(token)`: refresh-class verification via `parseJWT`,
then the `user_id` claim is fetched and type-asserted to `float64`. -/
def GetUserIDFromJWT (j : JwtBuilder) (now : Time) (t : SignedToken) :
    Except JwtErr UserID :=
  match parseJWT j now t with
  | Except.error e => Except.error e
  | Except.ok tok =>
    match tok.userId with
    | none => Except.error JwtErr.missingUserId
    | some (JsonValue.num q) => Except.ok (float64ToUserID q)
    | some _ => Except.error JwtErr.invalidUserId

/-- `SetAuthToContext(c)`: access-class verification via `parseRequest`,
then the `user_id` claim is fetched and type-asserted to `float64`;
instead of storing the id into the echo context the extracted id is
returned. -/
def SetAuthToContext (j : JwtBuilder) (now : Time) (t : SignedToken) :
    Except JwtErr UserID :=
  match parseRequest j now t with
  | Except.error e => Except.error e
  | Except.ok tok =>
    match tok.userId with
    | none => Except.error JwtErr.missingUserId
    | some (JsonValue.num q) => Except.ok (float64ToUserID q)
    | some _ => Except.error JwtErr.invalidUserId

/-! ## Session orchestrator (`usecase/user_usecase.go`)

Each operation returns its result together with the database after the
operation and the ordered list of storage / mail effects it performed.
The random salt and activation token produced by `createRandomString`
and the success of the mail collaborator are oracle parameters. -/

/-- Result of `PreRegister` / `preRegister`: the returned value, the
database afterwards, and the effects performed. -/
structure PreRegResult where
  res : Except UErr User
  db : Db
  effects : List Effect
deriving Repr

/-- The pending row built by `preRegister` before the storage insert:
zero-value id (the repository assigns the real id), hashed password,
fresh salt and activation token, state `UserInactive`; `now` is the
write timestamp the storage collaborator records. -/
def pendingUser (email pw salt activeToken : String) (now : Time) : User :=
  { ID := 0
    Email := email
    Salt := salt
    Password := CreateHashedPassword pw salt
    ActivateToken := activeToken
    State := UserState.inactive
    UpdatedAt := now }

/-- `userUsecase.preRegister(email, pw)`: hash the password, insert the
pending row, then send the activation token by mail; a mail failure is
returned as the overall error, after the insert, with no rollback. -/
def preRegister (db : Db) (email pw salt activeToken : String) (mailOk : Bool)
    (now : Time) : PreRegResult :=
  let u := pendingUser email pw salt activeToken now
  let db1 := db.Insert u
  if mailOk then
    ⟨Except.ok u, db1, [Effect.insertPending u, Effect.sendMail email activeToken]⟩
  else
    ⟨Except.error UErr.mailError, db1,
      [Effect.insertPending u, Effect.sendMail email activeToken]⟩

/-- `userUsecase.PreRegister(email, pw)`: look up by email; not found →
fresh pending registration; found and active → error; found and pending
→ delete the row, then fresh pending registration. -/
def PreRegister (db : Db) (email pw salt activeToken : String) (mailOk : Bool)
    (now : Time) : PreRegResult :=
  match db.GetByEmail email with
  | none => preRegister db email pw salt activeToken mailOk now
  | some u =>
    if u.IsActive then
      ⟨Except.error UErr.alreadyActive, db, []⟩
    else
      let r := preRegister (db.Delete u.ID) email pw salt activeToken mailOk now
      ⟨r.res, r.db, Effect.delete u.ID :: r.effects⟩

/-- Result of `Activate`: the returned value, the database afterwards,
and the effects performed. -/
structure ActivateResult where
  res : Except UErr Unit
  db : Db
  effects : List Effect
deriving Repr

/-- `userUsecase.Activate(email, token)`: load by email, then in order:
already-active check, token equality check, expiry check
`u.UpdatedAt.Add(30 min).Compare(now) != +1`, and on success the
mark-active storage write. -/
def Activate (db : Db) (now : Time) (email tok : String) : ActivateResult :=
  match db.GetByEmail email with
  | none => ⟨Except.error UErr.errNoRows, db, []⟩
  | some u =>
    if u.IsActive then
      ⟨Except.error UErr.alreadyActive, db, []⟩
    else if tok ≠ u.ActivateToken then
      ⟨Except.error UErr.invalidToken, db, []⟩
    else if timeCompare (u.UpdatedAt + 30 * minuteSec) now ≠ 1 then
      ⟨Except.error UErr.tokenExpired, db, []⟩
    else
      ⟨Except.ok (), db.MarkActive u.ID, [Effect.markActive u.ID]⟩

/-- Error kinds of `Refresh`: a credential-engine failure or a storage
lookup failure. -/
inductive RefreshErr where
  | jwt (e : JwtErr)
  | getFailed
deriving DecidableEq, Repr

/-- `userUsecase.Refresh(token)`: extract the user id with
`GetUserIDFromJWT`, load the account by id from storage, then mint a new
access token for the loaded account. `now` is the clock at verification;
`tIat` and `tExp` are the two clock readings inside the subsequent
`GenerateAccessToken`. -/
def Refresh (j : JwtBuilder) (db : Db) (now tIat tExp : Time)
    (t : SignedToken) : Except RefreshErr SignedToken :=
  match GetUserIDFromJWT j now t with
  | Except.error e => Except.error (RefreshErr.jwt e)
  | Except.ok uid =>
    match db.Get uid with
    | none => Except.error RefreshErr.getFailed
    | some u => Except.ok (GenerateAccessToken j u tIat tExp)

/-! ## Concrete data for evaluations -/

/-- A concrete activated account. -/
def demoUser : User :=
  { ID := 1
    Email := "a@x.com"
    Salt := "s"
    Password := "p$s"
    ActivateToken := "abcdefgh"
    State := UserState.active
    UpdatedAt := 0 }

/-- A concrete pending account, activation secret generated at time 0. -/
def pendingDemo : User :=
  { ID := 2
    Email := "b@x.com"
    Salt := "s"
    Password := "p$s"
    ActivateToken := "abcdefgh"
    State := UserState.inactive
    UpdatedAt := 0 }

/-- A concrete account that is stored but not active. -/
def staleUser : User :=
  { ID := 5
    Email := "c@x.com"
    Salt := "s"
    Password := "p$s"
    ActivateToken := "abcdefgh"
    State := UserState.inactive
    UpdatedAt := 0 }

/-- The rational 3/2, written out as numerator and denominator: a
non-integer value exactly representable in `float64`. -/
def ratThreeHalves : ℚ :=
  ⟨3, 2, by decide, by decide⟩

/-- A refresh-class token for account id 5, signed with keypair 0,
expiring at time 100: it passes refresh-class verification before
time 100. -/
def refreshTok5 : SignedToken :=
  { iss := issClaim
    sub := refreshSubClaim
    iat := 0
    exp := 100
    userId := some (JsonValue.num 5)
    sigKey := 0 }

/-! ## Helper lemmas -/

/-- `timeCompare a b` is not `+1` when `a ≤ b`. -/
theorem timeCompare_ne_one_of_le {a b : Time} (h : a ≤ b) : timeCompare a b ≠ 1 := by
  simp only [timeCompare]
  split_ifs with h1 h2
  · decide
  · decide
  · exact absurd (le_antisymm h (not_lt.mp h1)) h2

/-- `timeCompare a b = +1` when `b < a`. -/
theorem timeCompare_eq_one_of_lt {a b : Time} (h : b < a) : timeCompare a b = 1 := by
  simp only [timeCompare]
  split_ifs with h1 h2
  · exact absurd h1 (lt_asymm h)
  · subst h2
    exact absurd h (lt_irrefl _)
  · rfl

/-! ## Claims -/

/-- C1: the claim says `GetUserIDFromJWT(GenerateRefreshToken(u))`
returns `u.ID`. The code fails it: `generateJWT` writes the subject
`accessSubClaim` regardless of its `subClaim` argument, so the minted
refresh credential carries subject `access-token` and refresh-class
verification rejects it. Evaluated at the failing input (user id 1,
keypair 0, all clocks 0): the refresh round-trip errors while the
access-class half of the claim does extract `u.ID`. -/
theorem c1_refresh_roundtrip_fails_on_code :
    GetUserIDFromJWT (NewJwtBuilder 0) 0
        (GenerateRefreshToken (NewJwtBuilder 0) demoUser 0 0)
      = Except.error JwtErr.parseError
  ∧ SetAuthToContext (NewJwtBuilder 0) 0
        (GenerateAccessToken (NewJwtBuilder 0) demoUser 0 0)
      = Except.ok demoUser.ID :=
  ⟨rfl, rfl⟩

/-- C2: the claim says a `GenerateRefreshToken` credential never passes
access-class verification (`parseRequest`). The code fails it: because
`generateJWT` hardcodes the access subject, the minted refresh
credential passes `parseRequest`, while the access credential is indeed
rejected by refresh-class `parseJWT`. Evaluated at the failing input
(user id 1, keypair 0, all clocks 0). -/
theorem c2_class_separation_broken_on_code :
    parseJWT (NewJwtBuilder 0) 0
        (GenerateAccessToken (NewJwtBuilder 0) demoUser 0 0)
      = Except.error JwtErr.parseError
  ∧ parseRequest (NewJwtBuilder 0) 0
        (GenerateRefreshToken (NewJwtBuilder 0) demoUser 0 0)
      = Except.ok (GenerateRefreshToken (NewJwtBuilder 0) demoUser 0 0) :=
  ⟨rfl, rfl⟩

/-- C3 counterexample: at `now` exactly `updated_at + 30 minutes`, with
the pending account stored and the matching secret presented, `Activate`
returns the token-expired error instead of activating, refuting the
claim that the boundary instant still succeeds. -/
theorem c3_boundary_expired :
    Activate ⟨[pendingDemo]⟩ 1800 "b@x.com" "abcdefgh"
      = ⟨Except.error UErr.tokenExpired, ⟨[pendingDemo]⟩, []⟩ :=
  rfl

/-- C3 (amended): for every account loaded by email, `Activate` returns
the already-active error when the account is active, the invalid-token
error when the presented secret differs, the token-expired error when
`updated_at + 30 minutes ≤ now` (including exactly at the boundary),
and otherwise (`now` strictly before `updated_at + 30 minutes`)
marks the account active and persists it. -/
theorem c3_activate_cases (db : Db) (now : Time) (email tok : String) (u : User)
    (hget : db.GetByEmail email = some u) :
    (u.IsActive = true →
        Activate db now email tok = ⟨Except.error UErr.alreadyActive, db, []⟩)
  ∧ (u.IsActive = false → tok ≠ u.ActivateToken →
        Activate db now email tok = ⟨Except.error UErr.invalidToken, db, []⟩)
  ∧ (u.IsActive = false → tok = u.ActivateToken →
        u.UpdatedAt + 30 * minuteSec ≤ now →
        Activate db now email tok = ⟨Except.error UErr.tokenExpired, db, []⟩)
  ∧ (u.IsActive = false → tok = u.ActivateToken →
        now < u.UpdatedAt + 30 * minuteSec →
        Activate db now email tok
          = ⟨Except.ok (), db.MarkActive u.ID, [Effect.markActive u.ID]⟩) := by
  refine ⟨?_, ?_, ?_, ?_⟩
  · intro ha
    simp [Activate, hget, ha]
  · intro ha htok
    simp [Activate, hget, ha, htok]
  · intro ha htok hexp
    simp [Activate, hget, ha, htok, timeCompare_ne_one_of_le hexp]
  · intro ha htok hlt
    simp [Activate, hget, ha, htok, timeCompare_eq_one_of_lt hlt]

/-- C3 witness: the success branch at a concrete input, 100 seconds
after the secret was generated. -/
theorem c3_activate_cases_witness :
    Activate ⟨[pendingDemo]⟩ 100 "b@x.com" "abcdefgh"
      = ⟨Except.ok (), (Db.mk [pendingDemo]).MarkActive pendingDemo.ID,
         [Effect.markActive pendingDemo.ID]⟩ :=
  (c3_activate_cases ⟨[pendingDemo]⟩ 100 "b@x.com" "abcdefgh" pendingDemo
    rfl).2.2.2 rfl rfl (by decide)

/-- C4 counterexample: a validly-signed, non-expired refresh-class token
for account id 5 presented against an empty store. The claim says the
bearer is granted a new access credential even if the account has been
deleted; the code instead loads the account by id and fails when the row
is gone. -/
theorem c4_deleted_account_not_granted :
    Refresh (NewJwtBuilder 0) ⟨[]⟩ 0 7 7 refreshTok5
      = Except.error RefreshErr.getFailed :=
  rfl

/-- C4 (amended): `Refresh` does not re-verify the account's active
state — any account id extracted from a token passing refresh-class
verification whose row is still in storage is granted a new access
credential, whatever its state — but the account is loaded by id, so a
deleted row makes `Refresh` fail instead. -/
theorem c4_refresh_ignores_active_state (k : KeyId) (db : Db)
    (now tIat tExp : Time) (t : SignedToken) (q : ℚ) (u : User)
    (hv : validateToken (NewJwtBuilder k) now refreshSubClaim t = true)
    (hid : t.userId = some (JsonValue.num q))
    (hu : db.Get (float64ToUserID q) = some u) :
    Refresh (NewJwtBuilder k) db now tIat tExp t
      = Except.ok (GenerateAccessToken (NewJwtBuilder k) u tIat tExp) := by
  simp [Refresh, GetUserIDFromJWT, parseJWT, hv, hid, hu]

/-- C4 witness: the stored account id 5 is inactive, yet the refresh
token for id 5 is granted a new access credential. -/
theorem c4_refresh_ignores_active_state_witness :
    staleUser.IsActive = false
  ∧ Refresh (NewJwtBuilder 0) ⟨[staleUser]⟩ 0 7 7 refreshTok5
      = Except.ok (GenerateAccessToken (NewJwtBuilder 0) staleUser 7 7) :=
  ⟨rfl, c4_refresh_ignores_active_state 0 ⟨[staleUser]⟩ 0 7 7 refreshTok5 5
    staleUser rfl rfl rfl⟩

/-- C5 counterexample: a refresh-class token whose `user_id` claim is
the non-integer number 3/2 (exactly representable in `float64`). The
claim says any non-integer numeric value is a malformed-claim failure;
the code instead accepts every `float64` and coerces it, returning id 1. -/
theorem c5_noninteger_claim_accepted :
    ratThreeHalves = 3 / 2
  ∧ GetUserIDFromJWT (NewJwtBuilder 0) 0
      { iss := issClaim
        sub := refreshSubClaim
        iat := 0
        exp := 100
        userId := some (JsonValue.num ratThreeHalves)
        sigKey := 0 }
      = Except.ok 1 :=
  ⟨Rat.ext (by norm_num [ratThreeHalves]) (by norm_num [ratThreeHalves]), rfl⟩

/-- C5 (amended): on a token passing refresh-class verification, the
`user_id` claim is accepted whenever it deserializes as a JSON number
(Go `float64`) — including non-integer and negative values, which are
coerced to the integer id by truncation — and a missing claim or any
non-numeric shape yields the malformed-claim failure. -/
theorem c5_claim_extraction (k : KeyId) (now : Time) (t : SignedToken)
    (hv : validateToken (NewJwtBuilder k) now refreshSubClaim t = true) :
    (t.userId = none →
        GetUserIDFromJWT (NewJwtBuilder k) now t
          = Except.error JwtErr.missingUserId)
  ∧ (∀ q : ℚ, t.userId = some (JsonValue.num q) →
        GetUserIDFromJWT (NewJwtBuilder k) now t
          = Except.ok (float64ToUserID q))
  ∧ (∀ s : String, t.userId = some (JsonValue.str s) →
        GetUserIDFromJWT (NewJwtBuilder k) now t
          = Except.error JwtErr.invalidUserId)
  ∧ (∀ b : Bool, t.userId = some (JsonValue.boolean b) →
        GetUserIDFromJWT (NewJwtBuilder k) now t
          = Except.error JwtErr.invalidUserId)
  ∧ (t.userId = some JsonValue.null →
        GetUserIDFromJWT (NewJwtBuilder k) now t
          = Except.error JwtErr.invalidUserId) := by
  refine ⟨?_, ?_, ?_, ?_, ?_⟩
  · intro h
    simp [GetUserIDFromJWT, parseJWT, hv, h]
  · intro q h
    simp [GetUserIDFromJWT, parseJWT, hv, h]
  · intro s h
    simp [GetUserIDFromJWT, parseJWT, hv, h]
  · intro b h
    simp [GetUserIDFromJWT, parseJWT, hv, h]
  · intro h
    simp [GetUserIDFromJWT, parseJWT, hv, h]

/-- C5 witness: a negative numeric claim is coerced, a string-shaped
claim is rejected, at concrete tokens. -/
theorem c5_claim_extraction_witness :
    GetUserIDFromJWT (NewJwtBuilder 0) 0
        { iss := issClaim, sub := refreshSubClaim, iat := 0, exp := 100,
          userId := some (JsonValue.num (-3)), sigKey := 0 }
      = Except.ok (-3)
  ∧ GetUserIDFromJWT (NewJwtBuilder 0) 0
        { iss := issClaim, sub := refreshSubClaim, iat := 0, exp := 100,
          userId := some (JsonValue.str "1"), sigKey := 0 }
      = Except.error JwtErr.invalidUserId :=
  ⟨(c5_claim_extraction 0 0
      { iss := issClaim, sub := refreshSubClaim, iat := 0, exp := 100,
        userId := some (JsonValue.num (-3)), sigKey := 0 } rfl).2.1 (-3) rfl,
   (c5_claim_extraction 0 0
      { iss := issClaim, sub := refreshSubClaim, iat := 0, exp := 100,
        userId := some (JsonValue.str "1"), sigKey := 0 } rfl).2.2.1 "1" rfl⟩

/-- C6 counterexample: the two `time.Now()` readings inside
`generateJWT` are distinct calls; when the clock advances by one second
between them (first reading 0, second reading 1) the issued access
credential has `exp - iat = 1801` seconds, not the 30-minute TTL. -/
theorem c6_clock_advance_breaks_exact_ttl :
    (GenerateAccessToken (NewJwtBuilder 0) demoUser 0 1).exp
        - (GenerateAccessToken (NewJwtBuilder 0) demoUser 0 1).iat
      ≠ expAccess := by
  decide

/-- C6 (amended): for every issued credential, `exp - iat` equals the
class TTL (30 minutes for access, 72 hours for refresh) plus the clock
advance between the `IssuedAt` reading and the `Expiration` reading of
`time.Now()`; it is exactly the TTL precisely when the two readings
coincide. -/
theorem c6_ttl_plus_clock_advance (k : KeyId) (u : User) (t1 t2 : Time) :
    (GenerateAccessToken (NewJwtBuilder k) u t1 t2).exp
        - (GenerateAccessToken (NewJwtBuilder k) u t1 t2).iat
      = expAccess + (t2 - t1)
  ∧ (GenerateRefreshToken (NewJwtBuilder k) u t1 t2).exp
        - (GenerateRefreshToken (NewJwtBuilder k) u t1 t2).iat
      = expRefresh + (t2 - t1) := by
  constructor <;>
    simp [GenerateAccessToken, GenerateRefreshToken, generateJWT] <;>
    ring

/-- C7: `PreRegister` branches exactly three ways on the lookup by
email: not found → fresh pending registration; found active → the
already-active error with storage untouched and no effects; found
pending → the stored row is deleted and a fresh pending registration
runs against the remaining store. -/
theorem c7_preRegister_branches (db : Db) (email pw salt activeToken : String)
    (mailOk : Bool) (now : Time) :
    (db.GetByEmail email = none →
        PreRegister db email pw salt activeToken mailOk now
          = preRegister db email pw salt activeToken mailOk now)
  ∧ (∀ u : User, db.GetByEmail email = some u → u.IsActive = true →
        PreRegister db email pw salt activeToken mailOk now
          = ⟨Except.error UErr.alreadyActive, db, []⟩)
  ∧ (∀ u : User, db.GetByEmail email = some u → u.IsActive = false →
        PreRegister db email pw salt activeToken mailOk now
          = ⟨(preRegister (db.Delete u.ID) email pw salt activeToken mailOk now).res,
             (preRegister (db.Delete u.ID) email pw salt activeToken mailOk now).db,
             Effect.delete u.ID ::
               (preRegister (db.Delete u.ID) email pw salt activeToken mailOk now).effects⟩) := by
  refine ⟨?_, ?_, ?_⟩
  · intro h
    simp [PreRegister, h]
  · intro u hu ha
    simp [PreRegister, hu, ha]
  · intro u hu ha
    simp [PreRegister, hu, ha]

/-- C7 witness: the not-found branch at a concrete empty store. -/
theorem c7_preRegister_branches_witness :
    PreRegister ⟨[]⟩ "d@x.com" "pw1234" "saltsaltsaltsaltsaltsaltsaltsa" "tok45678" true 5
      = preRegister ⟨[]⟩ "d@x.com" "pw1234" "saltsaltsaltsaltsaltsaltsaltsa" "tok45678" true 5 :=
  (c7_preRegister_branches ⟨[]⟩ "d@x.com" "pw1234"
    "saltsaltsaltsaltsaltsaltsaltsa" "tok45678" true 5).1 rfl

/-- C8: when the mail collaborator fails, `preRegister` returns the mail
error — so the overall operation fails — yet the pending row inserted
just before is in the resulting store and is not rolled back; the same
holds for `PreRegister` on the not-found branch. -/
theorem c8_mail_failure_keeps_row (db : Db) (email pw salt activeToken : String)
    (now : Time) :
    (preRegister db email pw salt activeToken false now).res
        = Except.error UErr.mailError
  ∧ pendingUser email pw salt activeToken now
      ∈ (preRegister db email pw salt activeToken false now).db.users
  ∧ Effect.insertPending (pendingUser email pw salt activeToken now)
      ∈ (preRegister db email pw salt activeToken false now).effects
  ∧ (db.GetByEmail email = none →
        (PreRegister db email pw salt activeToken false now).res
            = Except.error UErr.mailError
        ∧ pendingUser email pw salt activeToken now
            ∈ (PreRegister db email pw salt activeToken false now).db.users) := by
  refine ⟨?_, ?_, ?_, ?_⟩
  · simp [preRegister]
  · simp [preRegister, Db.Insert]
  · simp [preRegister]
  · intro h
    constructor
    · simp [PreRegister, h, preRegister]
    · simp [PreRegister, h, preRegister, Db.Insert]

/-- C8 witness: a concrete failed-mail pre-registration against an empty
store. -/
theorem c8_mail_failure_keeps_row_witness :
    (PreRegister ⟨[]⟩ "e@x.com" "pw1234" "salt" "tok12345" false 5).res
        = Except.error UErr.mailError
  ∧ pendingUser "e@x.com" "pw1234" "salt" "tok12345" 5
      ∈ (PreRegister ⟨[]⟩ "e@x.com" "pw1234" "salt" "tok12345" false 5).db.users :=
  (c8_mail_failure_keeps_row ⟨[]⟩ "e@x.com" "pw1234" "salt" "tok12345" 5).2.2.2 rfl

/-- C9: `Activate` checks its preconditions in a fixed order — already
active, then secret match, then expiry — so an active account with a
wrong secret gets the already-active error, and a wrong secret after the
30-minute window gets the invalid-token error, not the expired error. -/
theorem c9_activate_check_order (db : Db) (now : Time) (email tok : String)
    (u : User) (hget : db.GetByEmail email = some u) :
    (u.IsActive = true → tok ≠ u.ActivateToken →
        (Activate db now email tok).res = Except.error UErr.alreadyActive)
  ∧ (u.IsActive = false → tok ≠ u.ActivateToken →
        u.UpdatedAt + 30 * minuteSec ≤ now →
        (Activate db now email tok).res = Except.error UErr.invalidToken) := by
  constructor
  · intro ha _
    simp [Activate, hget, ha]
  · intro ha htok _
    simp [Activate, hget, ha, htok]

/-- C9 witness: both orderings at concrete inputs: an active account
with a wrong secret, and a pending account with a wrong secret one hour
past its window. -/
theorem c9_activate_check_order_witness :
    (Activate ⟨[demoUser]⟩ 0 "a@x.com" "wrongtok").res
        = Except.error UErr.alreadyActive
  ∧ (Activate ⟨[pendingDemo]⟩ 5400 "b@x.com" "wrongtok").res
        = Except.error UErr.invalidToken :=
  ⟨(c9_activate_check_order ⟨[demoUser]⟩ 0 "a@x.com" "wrongtok" demoUser
      rfl).1 rfl (by decide),
   (c9_activate_check_order ⟨[pendingDemo]⟩ 5400 "b@x.com" "wrongtok" pendingDemo
      rfl).2 rfl (by decide) (by decide)⟩

/-- C10: `PreRegister` never deletes or replaces an active account: when
the account found by email is active, the operation fails with the
already-active error, the store is unchanged, and no storage or mail
effect is performed. -/
theorem c10_active_account_untouched (db : Db) (email pw salt activeToken : String)
    (mailOk : Bool) (now : Time) (u : User)
    (hget : db.GetByEmail email = some u) (hact : u.IsActive = true) :
    PreRegister db email pw salt activeToken mailOk now
      = ⟨Except.error UErr.alreadyActive, db, []⟩ := by
  simp [PreRegister, hget, hact]

/-- C10 witness: a concrete store holding one active account. -/
theorem c10_active_account_untouched_witness :
    PreRegister ⟨[demoUser]⟩ "a@x.com" "pw1234" "salt" "tok12345" true 5
      = ⟨Except.error UErr.alreadyActive, ⟨[demoUser]⟩, []⟩ :=
  c10_active_account_untouched ⟨[demoUser]⟩ "a@x.com" "pw1234" "salt" "tok12345"
    true 5 demoUser rfl rfl

end LoginExample
